import Mathlib

/-!
Verification of the interactive core of the Tajmir letterhead editor.

Shallow embedding of: the PDF-export / clipboard-copy pipeline of the app
component (zoom reset, busy flag, capture), the per-pixel background
removal processor, the drag / resize / select state machine of draggable
image and text elements, the crop inputs, id generation for added blocks,
and the persistence of draggable blocks.

Numbers are modelled as exact rationals.  For the pixel processor the
comparison brightness > 255 - threshold * 2.55 computed in binary floats
agrees with exact rational arithmetic for every integer threshold 0..100
and integer channel values 0..255 (the only possible ties occur at
thresholds 20, 40, 60, 80, 100, where the float threshold is never below
the exact one and the comparison is strict), so the rational model is
faithful to the source.
-/

/-- A point, used for both screen and document coordinates. -/
structure Pt where
  x : ℚ
  y : ℚ

/-- Width and height of an element, document pixels. -/
structure Sz where
  width : ℚ
  height : ℚ

/-! ## App component: export / copy pipeline (src/unnamed/part_000) -/

/-- App-level state: the shared zoom value, the busy flag isProcessing,
a counter of capture sequences started (html2canvas invocations, used to
state concurrency claims), and the last toast message. -/
structure AppState where
  zoom : ℚ
  isProcessing : Bool
  captures : Nat
  toast : Option String

/-- Embedding of handleExportPDF.  pageRef says whether pageRef.current is
non-null; captureOk says whether the html2canvas call succeeds or throws.
The body follows the source: early return when the page ref is null, set
the busy flag, record the zoom, try (zoom to 1, settle, capture, encode,
save, toast) or catch (toast failure), finally (restore zoom, clear busy).
Sequential state threading models the single-threaded event loop. -/
def handleExportPDF (pageRef : Bool) (captureOk : Bool) (s : AppState) : AppState :=
  if !pageRef then s
  else
    let s1 := { s with isProcessing := true }
    let originalZoom := s1.zoom
    -- try: setZoom(1); await settle delay; html2canvas; toDataURL; pdf save
    let s2 := { s1 with zoom := 1 }
    let s3 := { s2 with captures := s2.captures + 1 }
    let s4 :=
      if captureOk then { s3 with toast := some "PDF Downloaded successfully" }
      else { s3 with toast := some "Failed to generate PDF" }
    -- finally: restore original zoom, clear the busy flag
    { s4 with zoom := originalZoom, isProcessing := false }

/-- Embedding of handleCopyImage.  blobOk says whether toBlob produced a
blob (the throw inside the toBlob callback is uncaught and happens after
the finally block, so it only suppresses the toast); clipboardOk says
whether the clipboard write succeeded (its failure is caught in the
callback and reported by its own toast). -/
def handleCopyImage (pageRef captureOk blobOk clipboardOk : Bool)
    (s : AppState) : AppState :=
  if !pageRef then s
  else
    let s1 := { s with isProcessing := true }
    let originalZoom := s1.zoom
    let s2 := { s1 with zoom := 1 }
    let s3 := { s2 with captures := s2.captures + 1 }
    let s4 :=
      if captureOk then
        if blobOk then
          if clipboardOk then { s3 with toast := some "Copied to clipboard!" }
          else { s3 with toast := some "Clipboard write failed (browser limitation)" }
        else s3
      else { s3 with toast := some "Failed to copy image" }
    { s4 with zoom := originalZoom, isProcessing := false }

/-! ## Pixel processor: background removal (src/components/DraggableImage.tsx) -/

/-- One RGBA pixel of an ImageData buffer; channels are bytes 0..255. -/
structure Pixel where
  r : Nat
  g : Nat
  b : Nat
  a : Nat

/-- A decoded raster image: dimensions and the row-major pixel data. -/
structure RawImage where
  width : Nat
  height : Nat
  data : List Pixel

/-- Brightness of a pixel as computed in the processing effect:
(r + g + b) / 3. -/
def brightness (p : Pixel) : ℚ :=
  ((p.r : ℚ) + p.g + p.b) / 3

/-- Per-pixel step of the processing loop: if the pixel is brighter than
255 - threshold * 2.55, its alpha channel is set to 0, else it is kept.
The literal 2.55 is the exact rational 51/20, the value of the source
literal. -/
def stripPixel (threshold : Nat) (p : Pixel) : Pixel :=
  if brightness p > 255 - (threshold : ℚ) * 2.55 then { p with a := 0 } else p

/-- The processing effect: at threshold 0 it early-returns the original
source image unmodified; otherwise it redraws the image with the per-pixel
alpha strip applied to every pixel, dimensions taken from the source. -/
def processImage (img : RawImage) (threshold : Nat) : RawImage :=
  if threshold = 0 then img
  else { img with data := img.data.map (stripPixel threshold) }

/-- Concrete test image: a solid white 2 by 2 image, fully opaque. -/
def white2x2 : RawImage :=
  ⟨2, 2, [⟨255, 255, 255, 255⟩, ⟨255, 255, 255, 255⟩,
          ⟨255, 255, 255, 255⟩, ⟨255, 255, 255, 255⟩]⟩

/-! ## Draggable image element state machine (src/components/DraggableImage.tsx) -/

/-- The four crop percentages, as stored by the crop inputs.  The handlers
store Number(e.target.value), so the fields are rationals, not a bounded
subtype. -/
structure Crop where
  t : ℚ
  r : ℚ
  b : ℚ
  l : ℚ

/-- Snapshot taken by handleResizeStart: width, height and position at the
moment the resize began. -/
structure StartDim where
  w : ℚ
  h : ℚ
  x : ℚ
  y : ℚ

/-- The state of one DraggableImage component: the useState hooks plus the
two refs used by the drag and resize protocol. -/
structure ImgState where
  position : Pt
  size : Sz
  processedSrc : String
  showMagic : Bool
  showCrop : Bool
  threshold : Nat
  crop : Crop
  isDragging : Bool
  isResizing : Bool
  isSelected : Bool
  dragStart : Option Pt
  startDim : Option StartDim

/-- Initial state of a DraggableImage, from the useState initializers:
position from the props, size 200 by 200, processedSrc initialized to the
source, no panel open, threshold 0, all crop sides 0, no interaction in
progress, both refs null. -/
def initImgState (src : String) (initialX initialY : ℚ) : ImgState :=
  { position := ⟨initialX, initialY⟩
    size := ⟨200, 200⟩
    processedSrc := src
    showMagic := false
    showCrop := false
    threshold := 0
    crop := ⟨0, 0, 0, 0⟩
    isDragging := false
    isResizing := false
    isSelected := false
    dragStart := none
    startDim := none }

/-- handleMouseDown on the move affordance: start dragging and record the
pointer screen position. -/
def imgMouseDown (e : Pt) (s : ImgState) : ImgState :=
  { s with isDragging := true, dragStart := some e }

/-- handleResizeStart on the corner affordance: start resizing, record the
pointer screen position and snapshot the current size and position. -/
def handleResizeStart (e : Pt) (s : ImgState) : ImgState :=
  { s with isResizing := true
           dragStart := some e
           startDim := some ⟨s.size.width, s.size.height, s.position.x, s.position.y⟩ }

/-- The window mousemove handler of DraggableImage.  The drag branch adds
the screen delta divided by zoom to the position and re-baselines the
recorded pointer; the resize branch (which reads the possibly re-baselined
ref, exactly as the source does) sets the size to the snapshot plus the
delta against the recorded point, each dimension clamped below by 50. -/
def imgMouseMove (zoom : ℚ) (e : Pt) (s : ImgState) : ImgState :=
  let s1 :=
    match s.isDragging, s.dragStart with
    | true, some start =>
        { s with
            position := ⟨s.position.x + (e.x - start.x) / zoom,
                         s.position.y + (e.y - start.y) / zoom⟩
            dragStart := some e }
    | _, _ => s
  match s1.isResizing, s1.startDim, s1.dragStart with
  | true, some d, some start =>
      { s1 with
          size := ⟨max 50 (d.w + (e.x - start.x) / zoom),
                   max 50 (d.h + (e.y - start.y) / zoom)⟩ }
  | _, _, _ => s1

/-- The window mouseup handler: stop dragging and resizing, clear both
refs. -/
def imgMouseUp (s : ImgState) : ImgState :=
  { s with isDragging := false, isResizing := false,
           dragStart := none, startDim := none }

/-- handleClickOutside (window mousedown): when the event target is outside
the container and not on a control button nor inside a tool panel, the
element is deselected and both tool panels are closed. -/
def handleClickOutside (outsideContainer onControlBtn onToolPanel : Bool)
    (s : ImgState) : ImgState :=
  if outsideContainer && !onControlBtn && !onToolPanel then
    { s with isSelected := false, showMagic := false, showCrop := false }
  else s

/-- The anonymous window touchstart handler (rudimentary touch
click-outside): under the same condition it only deselects the element. -/
def touchStartOutside (outsideContainer onControlBtn onToolPanel : Bool)
    (s : ImgState) : ImgState :=
  if outsideContainer && !onControlBtn && !onToolPanel then
    { s with isSelected := false }
  else s

/-- onChange of the Top crop input: store Number(e.target.value) for side
t, spreading the other sides. -/
def setCropT (v : ℚ) (s : ImgState) : ImgState :=
  { s with crop := { s.crop with t := v } }

/-- onChange of the Right crop input. -/
def setCropR (v : ℚ) (s : ImgState) : ImgState :=
  { s with crop := { s.crop with r := v } }

/-- onChange of the Bottom crop input. -/
def setCropB (v : ℚ) (s : ImgState) : ImgState :=
  { s with crop := { s.crop with b := v } }

/-- onChange of the Left crop input. -/
def setCropL (v : ℚ) (s : ImgState) : ImgState :=
  { s with crop := { s.crop with l := v } }

/-! ## Draggable text element (DraggableText, same source file) -/

/-- The state of one DraggableText component. -/
structure TextState where
  position : Pt
  isDragging : Bool
  isHovered : Bool
  isSelected : Bool
  dragStart : Option Pt

/-- Initial state of a DraggableText, position from the props. -/
def initTextState (initialX initialY : ℚ) : TextState :=
  { position := ⟨initialX, initialY⟩
    isDragging := false
    isHovered := false
    isSelected := false
    dragStart := none }

/-- handleMouseDown on the Move affordance of a text block. -/
def textMouseDown (e : Pt) (s : TextState) : TextState :=
  { s with isDragging := true, dragStart := some e }

/-- The window mousemove handler of DraggableText: early return unless
dragging with a recorded point, else add the screen delta divided by zoom
to the position and re-baseline the recorded pointer position. -/
def textMouseMove (zoom : ℚ) (e : Pt) (s : TextState) : TextState :=
  match s.isDragging, s.dragStart with
  | true, some start =>
      { s with
          position := ⟨s.position.x + (e.x - start.x) / zoom,
                       s.position.y + (e.y - start.y) / zoom⟩
          dragStart := some e }
  | _, _ => s

/-! ## Element collection and persistence (src/unnamed/part_001) -/

/-- A persisted draggable text block record. -/
structure TextBlock where
  id : Nat
  x : ℚ
  y : ℚ

/-- A persisted draggable image block record. -/
structure ImageBlock where
  id : Nat
  src : String
  x : ℚ
  y : ℚ

/-- Effect of the ADD_TEXT action: append a new block whose id is the
Date.now() reading at the moment the action is handled, at the default
offset (50, 200). -/
def addTextAction (now : Nat) (blocks : List TextBlock) : List TextBlock :=
  blocks ++ [⟨now, 50, 200⟩]

/-- A sequence of ADD_TEXT commands starting from the empty collection,
given the Date.now() readings observed at each command. -/
def runAdds (clocks : List Nat) : List TextBlock :=
  clocks.foldl (fun blocks c => addTextAction c blocks) []

/-- The draggables part of the load effect.  getItem models
localStorage.getItem (throwing, missing, or present), parseTextBlocks and
parseImageBlocks model JSON.parse on the two records (throwing on
malformed input).  The whole block is wrapped in one try/catch that logs
and keeps whatever state was already set, so a throw during the text step
leaves both collections empty and a throw during the image step keeps the
loaded text blocks. -/
def loadDraggables (getItem : String → Except Unit (Option String))
    (parseTextBlocks : String → Except Unit (List TextBlock))
    (parseImageBlocks : String → Except Unit (List ImageBlock)) :
    List TextBlock × List ImageBlock :=
  match getItem "tajmir_doc_draggables_text" with
  | .error _ => ([], [])
  | .ok savedText =>
    match (match savedText with
           | none => Except.ok ([] : List TextBlock)
           | some str => parseTextBlocks str) with
    | .error _ => ([], [])
    | .ok texts =>
      match getItem "tajmir_doc_draggables_img" with
      | .error _ => (texts, [])
      | .ok savedImg =>
        match (match savedImg with
               | none => Except.ok ([] : List ImageBlock)
               | some str => parseImageBlocks str) with
        | .error _ => (texts, [])
        | .ok imgs => (texts, imgs)

/-- The save effect for text blocks: a bare setItem call with no try/catch
around it, so a throwing setItem propagates to the caller. -/
def saveTextBlocks (setItem : String → String → Except Unit Unit)
    (stringify : List TextBlock → String) (blocks : List TextBlock) :
    Except Unit Unit :=
  setItem "tajmir_doc_draggables_text" (stringify blocks)

/-- The save effect for image blocks, likewise unguarded. -/
def saveImageBlocks (setItem : String → String → Except Unit Unit)
    (stringify : List ImageBlock → String) (blocks : List ImageBlock) :
    Except Unit Unit :=
  setItem "tajmir_doc_draggables_img" (stringify blocks)

/-! ## Claims about the pipeline -/

/-- Claim C1: for every starting zoom z0, running the PDF-export or
clipboard-copy pipeline leaves the document zoom equal to z0 and the busy
flag cleared, on the success path and on every failure path (rasterization
throwing, empty blob, clipboard failure, missing page ref included); the
document is never left at zoom 1 (unless z0 = 1) nor marked busy. -/
theorem claim_C1 (z0 : ℚ) (c : Nat) (t : Option String)
    (pageRef captureOk blobOk clipboardOk : Bool) :
    (handleExportPDF pageRef captureOk ⟨z0, false, c, t⟩).zoom = z0 ∧
    (handleExportPDF pageRef captureOk ⟨z0, false, c, t⟩).isProcessing = false ∧
    (handleCopyImage pageRef captureOk blobOk clipboardOk ⟨z0, false, c, t⟩).zoom = z0 ∧
    (handleCopyImage pageRef captureOk blobOk clipboardOk ⟨z0, false, c, t⟩).isProcessing
      = false := by
  cases pageRef <;> cases captureOk <;> cases blobOk <;> cases clipboardOk <;>
    simp [handleExportPDF, handleCopyImage]

/-- Claim C2 counterexample: invoking the export entry point twice in the
same turn executes two capture sequences, not exactly one.  The handlers
never read the busy flag, so the second invocation is not a no-op. -/
theorem claim_C2_cex :
    ¬ ((handleExportPDF true true
        (handleExportPDF true true ⟨1, false, 0, none⟩)).captures = 1) := by
  decide

/-- Claim C2 amended: the export and copy entry points set the busy flag
while running and clear it afterwards, but never check it: invoked while
the busy flag is already set they still run a full capture sequence, and
invoking export twice in the same turn executes two capture sequences.
The busy flag is only exposed to the toolbar (isProcessing prop), which
may disable the buttons; the entry points themselves are not no-ops while
busy. -/
theorem claim_C2_amended (z : ℚ) (c : Nat) (t : Option String) (ok1 ok2 : Bool) :
    (handleExportPDF true ok1 ⟨z, true, c, t⟩).captures = c + 1 ∧
    (handleCopyImage true ok1 true true ⟨z, true, c, t⟩).captures = c + 1 ∧
    (handleExportPDF true ok2
      (handleExportPDF true ok1 ⟨z, false, c, t⟩)).captures = c + 2 := by
  cases ok1 <;> cases ok2 <;> simp [handleExportPDF, handleCopyImage]

/-! ## Helper lemmas -/

/-- Mapping a function that fixes every member of a list is the identity. -/
theorem list_map_self {α : Type} (f : α → α) :
    ∀ l : List α, (∀ p ∈ l, f p = p) → l.map f = l
  | [], _ => rfl
  | a :: l, h => by
      simp only [List.map_cons]
      rw [h a (List.mem_cons_self a l),
        list_map_self f l (fun p hp => h p (List.mem_cons_of_mem a hp))]

/-- One mousemove on a resizing image state (not dragging, recorded point a,
snapshot d): only the size changes, to the snapshot plus the document-space
delta against a, each dimension clamped below by 50; the recorded point and
the snapshot are untouched. -/
theorem imgMouseMove_resizing (z : ℚ) (e a : Pt) (d : StartDim) (pos : Pt) (sz : Sz)
    (psrc : String) (sm sc : Bool) (th : Nat) (cr : Crop) (sel : Bool) :
    imgMouseMove z e ⟨pos, sz, psrc, sm, sc, th, cr, false, true, sel, some a, some d⟩ =
      ⟨pos, ⟨max 50 (d.w + (e.x - a.x) / z), max 50 (d.h + (e.y - a.y) / z)⟩,
       psrc, sm, sc, th, cr, false, true, sel, some a, some d⟩ := rfl

/-- A nonempty run of mousemoves on a resizing image state: the final size is
determined by the last move alone (every move recomputes from the same
snapshot against the same recorded point), and nothing else changes. -/
theorem foldl_resize_concat (z : ℚ) (a : Pt) (d : StartDim) :
    ∀ (es : List Pt) (e : Pt) (pos : Pt) (sz : Sz) (psrc : String) (sm sc : Bool)
      (th : Nat) (cr : Crop) (sel : Bool),
      ((es ++ [e]).foldl (fun acc e2 => imgMouseMove z e2 acc)
        ⟨pos, sz, psrc, sm, sc, th, cr, false, true, sel, some a, some d⟩) =
        ⟨pos, ⟨max 50 (d.w + (e.x - a.x) / z), max 50 (d.h + (e.y - a.y) / z)⟩,
         psrc, sm, sc, th, cr, false, true, sel, some a, some d⟩
  | [], e, pos, sz, psrc, sm, sc, th, cr, sel => rfl
  | e2 :: es2, e, pos, sz, psrc, sm, sc, th, cr, sel => by
      rw [List.cons_append, List.foldl_cons]
      exact foldl_resize_concat z a d es2 e pos
        ⟨max 50 (d.w + (e2.x - a.x) / z), max 50 (d.h + (e2.y - a.y) / z)⟩
        psrc sm sc th cr sel

/-- The ids of a foldl of ADD_TEXT actions are the initial ids followed by
the clock readings. -/
theorem runAdds_ids_aux :
    ∀ (clocks : List Nat) (init : List TextBlock),
      (clocks.foldl (fun blocks c => addTextAction c blocks) init).map TextBlock.id =
        init.map TextBlock.id ++ clocks
  | [], init => by simp
  | c :: cs, init => by
      rw [List.foldl_cons, runAdds_ids_aux cs (addTextAction c init)]
      simp [addTextAction]

/-- The ids produced by a sequence of ADD_TEXT commands are exactly the
Date.now() readings observed at the commands. -/
theorem runAdds_ids (clocks : List Nat) :
    (runAdds clocks).map TextBlock.id = clocks := by
  simpa [runAdds] using runAdds_ids_aux clocks []

/-! ## Claims about the pixel processor -/

/-- Claim C3: for every decoded source image with byte channels and every
threshold 0..100, the processor keeps the dimensions and sets alpha to 0 on
exactly the pixels whose red/green/blue average exceeds
255 - threshold * 2.55, leaving every other pixel unchanged; at threshold 0
it returns the original image unmodified. -/
theorem claim_C3 (img : RawImage) (t : Nat)
    (hv : ∀ p ∈ img.data, p.r ≤ 255 ∧ p.g ≤ 255 ∧ p.b ≤ 255) (ht : t ≤ 100) :
    (processImage img t).width = img.width ∧
    (processImage img t).height = img.height ∧
    (processImage img t).data =
      img.data.map (fun p =>
        if ((p.r : ℚ) + p.g + p.b) / 3 > 255 - (t : ℚ) * 2.55 then
          { p with a := 0 } else p) ∧
    processImage img 0 = img := by
  refine ⟨?_, ?_, ?_, by simp [processImage]⟩
  · by_cases h0 : t = 0 <;> simp [processImage, h0]
  · by_cases h0 : t = 0 <;> simp [processImage, h0]
  · by_cases h0 : t = 0
    · subst h0
      simp only [processImage, if_pos rfl]
      symm
      apply list_map_self
      intro p hp
      obtain ⟨h1, h2, h3⟩ := hv p hp
      have hr : (p.r : ℚ) ≤ 255 := by exact_mod_cast h1
      have hg : (p.g : ℚ) ≤ 255 := by exact_mod_cast h2
      have hb : (p.b : ℚ) ≤ 255 := by exact_mod_cast h3
      refine if_neg ?_
      rw [not_lt]
      push_cast
      linarith
    · simp only [processImage, if_neg h0]
      rfl

/-- Claim C3 witness: a solid white 2 by 2 image at threshold 100 (every
pixel becomes transparent) and threshold 0 (unchanged). -/
theorem claim_C3_witness :
    (processImage white2x2 100).width = white2x2.width ∧
    (processImage white2x2 100).height = white2x2.height ∧
    (processImage white2x2 100).data =
      white2x2.data.map (fun p =>
        if ((p.r : ℚ) + p.g + p.b) / 3 > 255 - ((100 : ℕ) : ℚ) * 2.55 then
          { p with a := 0 } else p) ∧
    processImage white2x2 0 = white2x2 :=
  claim_C3 white2x2 100 (by decide) (by decide)

/-! ## Claims about the drag / resize / select state machine -/

/-- Claim C4: for every zoom z in [0.2, 3.0], a drag move on a text element
adds exactly the screen delta divided by z to the document position and
re-baselines the recorded pointer position; at z = 1 the transform is the
identity; a text element added at the default offset (50, 200) and dragged
by screen delta (100, 50) at zoom 0.5 lands at (250, 300). -/
theorem claim_C4 (z sx sy : ℚ) (p0 : Pt) (s : TextState)
    (hz : 1/5 ≤ z ∧ z ≤ 3) :
    (textMouseMove z ⟨p0.x + sx, p0.y + sy⟩ (textMouseDown p0 s)).position =
      ⟨s.position.x + sx / z, s.position.y + sy / z⟩ ∧
    (textMouseMove z ⟨p0.x + sx, p0.y + sy⟩ (textMouseDown p0 s)).dragStart =
      some ⟨p0.x + sx, p0.y + sy⟩ ∧
    (z = 1 →
      (textMouseMove z ⟨p0.x + sx, p0.y + sy⟩ (textMouseDown p0 s)).position =
        ⟨s.position.x + sx, s.position.y + sy⟩) ∧
    (textMouseMove (1/2) ⟨100, 50⟩
      (textMouseDown ⟨0, 0⟩ (initTextState 50 200))).position = ⟨250, 300⟩ := by
  refine ⟨?_, ?_, ?_, ?_⟩
  · simp [textMouseMove, textMouseDown, add_sub_cancel_left]
  · simp [textMouseMove, textMouseDown]
  · rintro rfl
    simp [textMouseMove, textMouseDown, add_sub_cancel_left]
  · norm_num [textMouseMove, textMouseDown, initTextState]

/-- Claim C4 witness at zoom 1 with the end-to-end drag instance. -/
theorem claim_C4_witness :
    (textMouseMove (1/2) ⟨100, 50⟩
      (textMouseDown ⟨0, 0⟩ (initTextState 50 200))).position = ⟨250, 300⟩ :=
  (claim_C4 1 0 0 ⟨0, 0⟩ (initTextState 0 0) (by norm_num)).2.2.2

/-- Claim C5: starting a resize from any non-dragging image state snapshots
the size and the down-point; every subsequent move sets the size to the
snapshot plus the document-space delta against the original down-point
(never re-baselined), each dimension clamped to a floor of 50, so width and
height never drop below 50 over any nonempty sequence of moves, and the
position is unchanged by resizing. -/
theorem claim_C5 (z ex ey : ℚ) (e0 pos : Pt) (sz : Sz) (psrc : String)
    (sm sc sel : Bool) (th : Nat) (cr : Crop) (ds : Option Pt) (sd : Option StartDim)
    (es : List Pt) (eLast : Pt) :
    (imgMouseMove z ⟨ex, ey⟩ (handleResizeStart e0
        ⟨pos, sz, psrc, sm, sc, th, cr, false, false, sel, ds, sd⟩)).size =
      ⟨max 50 (sz.width + (ex - e0.x) / z), max 50 (sz.height + (ey - e0.y) / z)⟩ ∧
    (imgMouseMove z ⟨ex, ey⟩ (handleResizeStart e0
        ⟨pos, sz, psrc, sm, sc, th, cr, false, false, sel, ds, sd⟩)).position = pos ∧
    (imgMouseMove z ⟨ex, ey⟩ (handleResizeStart e0
        ⟨pos, sz, psrc, sm, sc, th, cr, false, false, sel, ds, sd⟩)).dragStart = some e0 ∧
    50 ≤ (imgMouseMove z ⟨ex, ey⟩ (handleResizeStart e0
        ⟨pos, sz, psrc, sm, sc, th, cr, false, false, sel, ds, sd⟩)).size.width ∧
    50 ≤ (imgMouseMove z ⟨ex, ey⟩ (handleResizeStart e0
        ⟨pos, sz, psrc, sm, sc, th, cr, false, false, sel, ds, sd⟩)).size.height ∧
    ((es ++ [eLast]).foldl (fun acc e => imgMouseMove z e acc) (handleResizeStart e0
        ⟨pos, sz, psrc, sm, sc, th, cr, false, false, sel, ds, sd⟩)).size =
      ⟨max 50 (sz.width + (eLast.x - e0.x) / z),
       max 50 (sz.height + (eLast.y - e0.y) / z)⟩ ∧
    50 ≤ ((es ++ [eLast]).foldl (fun acc e => imgMouseMove z e acc) (handleResizeStart e0
        ⟨pos, sz, psrc, sm, sc, th, cr, false, false, sel, ds, sd⟩)).size.width ∧
    50 ≤ ((es ++ [eLast]).foldl (fun acc e => imgMouseMove z e acc) (handleResizeStart e0
        ⟨pos, sz, psrc, sm, sc, th, cr, false, false, sel, ds, sd⟩)).size.height ∧
    ((es ++ [eLast]).foldl (fun acc e => imgMouseMove z e acc) (handleResizeStart e0
        ⟨pos, sz, psrc, sm, sc, th, cr, false, false, sel, ds, sd⟩)).position = pos := by
  have hstart : handleResizeStart e0
      (⟨pos, sz, psrc, sm, sc, th, cr, false, false, sel, ds, sd⟩ : ImgState) =
      ⟨pos, sz, psrc, sm, sc, th, cr, false, true, sel, some e0,
        some ⟨sz.width, sz.height, pos.x, pos.y⟩⟩ := rfl
  have hfold := foldl_resize_concat z e0 ⟨sz.width, sz.height, pos.x, pos.y⟩
    es eLast pos sz psrc sm sc th cr sel
  refine ⟨rfl, rfl, rfl, le_max_left 50 _, le_max_left 50 _, ?_, ?_, ?_, ?_⟩
  · rw [hstart, hfold]
  · rw [hstart, hfold]; exact le_max_left 50 _
  · rw [hstart, hfold]; exact le_max_left 50 _
  · rw [hstart, hfold]

/-! ## Claims about the crop inputs -/

/-- Claim C6 counterexample: entering 75 (outside 0..50) for the top crop
side is not rejected: the prior value 0 is not retained, 75 is stored. -/
theorem claim_C6_cex :
    (setCropT 75 (initImgState "img" 0 0)).crop.t ≠ (initImgState "img" 0 0).crop.t ∧
    (setCropT 75 (initImgState "img" 0 0)).crop.t = 75 := by
  constructor
  · norm_num [setCropT, initImgState]
  · rfl

/-- Claim C6 amended: each crop input handler stores the entered numeric
value for its side unconditionally, keeping the other sides; a value
outside [0, 50] is neither rejected nor clamped by the handler (the range
appears only as min/max attributes on the number inputs, which do not
constrain typed values), so the stored side ends up out of range. -/
theorem claim_C6_amended (v : ℚ) (s : ImgState) (hv : v < 0 ∨ 50 < v) :
    (setCropT v s).crop = { s.crop with t := v } ∧
    (setCropR v s).crop = { s.crop with r := v } ∧
    (setCropB v s).crop = { s.crop with b := v } ∧
    (setCropL v s).crop = { s.crop with l := v } ∧
    ¬ (0 ≤ (setCropT v s).crop.t ∧ (setCropT v s).crop.t ≤ 50) := by
  refine ⟨rfl, rfl, rfl, rfl, ?_⟩
  have hvt : (setCropT v s).crop.t = v := rfl
  rintro ⟨h0, h50⟩
  rw [hvt] at h0 h50
  rcases hv with h | h <;> linarith

/-- Claim C6 witness at the out-of-range value 75. -/
theorem claim_C6_witness :
    ¬ (0 ≤ (setCropT 75 (initImgState "img" 0 0)).crop.t ∧
       (setCropT 75 (initImgState "img" 0 0)).crop.t ≤ 50) :=
  (claim_C6_amended 75 (initImgState "img" 0 0) (Or.inr (by norm_num))).2.2.2.2

/-! ## Claims about click-outside deselection -/

/-- Claim C7 counterexample: a touch pointer-down outside a selected image
element with the background-removal panel open deselects the element but
does not close the panel: the touchstart handler only clears the selection,
so the open tool panel state survives, unlike the claim of simultaneous
closing for every pointer-down (mouse or touch). -/
theorem claim_C7_cex :
    (touchStartOutside true false false
      { initImgState "img" 0 0 with isSelected := true, showMagic := true }).showMagic
      = true ∧
    (touchStartOutside true false false
      { initImgState "img" 0 0 with isSelected := true, showMagic := true }).isSelected
      = false := ⟨rfl, rfl⟩

/-- Claim C7 amended: a mouse pointer-down outside the element and outside
its control surfaces deselects the element and closes both tool panels
simultaneously; a touch pointer-down under the same condition only
deselects, leaving the panel-open state unchanged; pointer-downs inside the
element or on a control surface change nothing in either handler. -/
theorem claim_C7_amended (s : ImgState) (ob op : Bool) :
    handleClickOutside true false false s =
      { s with isSelected := false, showMagic := false, showCrop := false } ∧
    (touchStartOutside true false false s).isSelected = false ∧
    (touchStartOutside true false false s).showMagic = s.showMagic ∧
    (touchStartOutside true false false s).showCrop = s.showCrop ∧
    handleClickOutside false ob op s = s ∧
    handleClickOutside true true op s = s ∧
    handleClickOutside true ob true s = s ∧
    touchStartOutside false ob op s = s ∧
    touchStartOutside true true op s = s ∧
    touchStartOutside true ob true s = s := by
  refine ⟨rfl, rfl, rfl, rfl, ?_, ?_, ?_, ?_, ?_, ?_⟩ <;>
    cases ob <;> cases op <;> rfl

/-! ## Claims about element ids -/

/-- Claim C8 counterexample: two add commands handled within the same clock
millisecond (Date.now() returning 5 both times) produce ids [5, 5], which
are not pairwise distinct. -/
theorem claim_C8_cex :
    ¬ ((runAdds [5, 5]).map TextBlock.id).Pairwise (fun a b => a ≠ b) := by
  rw [runAdds_ids]
  decide

/-- Claim C8 amended: each added element receives the Date.now() reading at
its add command as id, so over a sequence of adds whose clock readings are
strictly increasing the ids are pairwise distinct and increasing in
creation order; adds within the same millisecond receive equal ids. -/
theorem claim_C8_amended (clocks : List Nat)
    (hmono : clocks.Pairwise (fun a b => a < b)) :
    ((runAdds clocks).map TextBlock.id).Pairwise (fun a b => a < b) ∧
    ((runAdds clocks).map TextBlock.id).Pairwise (fun a b => a ≠ b) := by
  rw [runAdds_ids]
  exact ⟨hmono, hmono.imp (fun h => Nat.ne_of_lt h)⟩

/-- Claim C8 witness with three adds at distinct clock readings. -/
theorem claim_C8_witness :
    ((runAdds [1, 2, 3]).map TextBlock.id).Pairwise (fun a b => a < b) ∧
    ((runAdds [1, 2, 3]).map TextBlock.id).Pairwise (fun a b => a ≠ b) :=
  claim_C8_amended [1, 2, 3] (by decide)

/-! ## Claims about persistence -/

/-- Claim C9 counterexample: the save effect has no try/catch, so a setItem
that throws propagates out of the effect instead of being swallowed. -/
theorem claim_C9_cex :
    saveTextBlocks (fun _ _ => Except.error ()) (fun _ => "x") [] =
      Except.error () := rfl

/-- Claim C9 amended: persistence read failures are swallowed — a getItem
that throws, or stored records whose parse throws, degrade to the empty
collections without propagating to the caller — but write failures are not
caught: the save effects call setItem bare, so a throwing setItem
propagates. -/
theorem claim_C9_amended
    (g g2 : String → Except Unit (Option String))
    (pt pt2 : String → Except Unit (List TextBlock))
    (pimg pimg2 : String → Except Unit (List ImageBlock))
    (st : String → String → Except Unit Unit)
    (strT : List TextBlock → String) (bs : List TextBlock)
    (hg : ∀ k, g k = Except.error ())
    (hg2 : ∀ k, g2 k = Except.ok (some "x"))
    (hpt2 : ∀ str, pt2 str = Except.error ())
    (hst : ∀ k v, st k v = Except.error ()) :
    loadDraggables g pt pimg = ([], []) ∧
    loadDraggables g2 pt2 pimg2 = ([], []) ∧
    saveTextBlocks st strT bs = Except.error () := by
  refine ⟨?_, ?_, ?_⟩
  · simp [loadDraggables, hg]
  · simp [loadDraggables, hg2, hpt2]
  · simp [saveTextBlocks, hst]

/-- Claim C9 witness with concrete throwing and malformed stores. -/
theorem claim_C9_witness :
    loadDraggables (fun _ => Except.error ())
      (fun _ => Except.ok []) (fun _ => Except.ok []) = ([], []) ∧
    loadDraggables (fun _ => Except.ok (some "x"))
      (fun _ => Except.error ()) (fun _ => Except.error ()) = ([], []) ∧
    saveTextBlocks (fun _ _ => Except.error ()) (fun _ => "x") [] =
      Except.error () :=
  claim_C9_amended (fun _ => Except.error ()) (fun _ => Except.ok (some "x"))
    (fun _ => Except.ok []) (fun _ => Except.error ())
    (fun _ => Except.ok []) (fun _ => Except.error ())
    (fun _ _ => Except.error ()) (fun _ => "x") []
    (fun _ => rfl) (fun _ => rfl) (fun _ => rfl) (fun _ _ => rfl)

/-! ## Claim about the initial image element state -/

/-- Claim C10: every newly created image element starts with size 200 by
200, threshold 0, all four crop percentages 0, no tool panel open, not
selected, dragging or resizing, position at the given offset, and its
processed image equal to its source; for every decoding of the source
string, processing the decoded source at the initial threshold gives
exactly the decoded initial processed image, so processedImage is
consistent with (sourceImage, threshold) from creation. -/
theorem claim_C10 (src : String) (x y : ℚ) (decode : String → RawImage) :
    (initImgState src x y).size = ⟨200, 200⟩ ∧
    (initImgState src x y).threshold = 0 ∧
    (initImgState src x y).crop = ⟨0, 0, 0, 0⟩ ∧
    (initImgState src x y).showMagic = false ∧
    (initImgState src x y).showCrop = false ∧
    (initImgState src x y).isSelected = false ∧
    (initImgState src x y).isDragging = false ∧
    (initImgState src x y).isResizing = false ∧
    (initImgState src x y).dragStart = none ∧
    (initImgState src x y).startDim = none ∧
    (initImgState src x y).position = ⟨x, y⟩ ∧
    (initImgState src x y).processedSrc = src ∧
    processImage (decode src) (initImgState src x y).threshold =
      decode ((initImgState src x y).processedSrc) :=
  ⟨rfl, rfl, rfl, rfl, rfl, rfl, rfl, rfl, rfl, rfl, rfl, rfl, rfl⟩
